import Mathlib

/-
Verification development for the fingerprint-camera-door-lock repository.

The Python sources are shallowly embedded as Lean definitions:

* `verify_user`                -- Backend/server.py, the /api/verify-user endpoint
* `hardware_check_pin_input`   -- Rasberry pi/hardware_keypad.py, HardwareKeypad.check_pin_input
* `unlock_check_pin_input`     -- Rasberry pi/gui_app.py, UnlockDoor.check_pin_input
* `process_frame`              -- Rasberry pi/face_recognition_folder/return_face.py,
                                  FaceRecognition._process_frame
* `process_face_step`, `process_fingerprint_step`, `process_verify_step`,
  `process_unlock_step_final`, `process_unlock_step`, `mainTick`
                               -- Rasberry pi/gui_app.py, UnlockDoor and the main loop
* `operate_lock`               -- Rasberry pi/servo/rotate.py, DoorLock.operate_lock

Hardware and network effects are passed in as per-tick oracle values (what the
camera, the sensor, the HTTP stack and the servo did on that call), and the
mutable Python object state is threaded explicitly.  Wall-clock instants are
rationals (Python floats compared against exact literals 15, 10 and 0.3).
-/

/-! ## Backend: server.py `/api/verify-user` -/

/-- One row of the `users` table as the endpoint reads it. -/
structure UserRecord where
  user_id : Nat
  name : String
  email : String
  pin_code : String
  fingerprint_id : Nat
  is_active : Bool
deriving DecidableEq, Repr

/-- The JSON response of `/api/verify-user`, restricted to the fields the
Raspberry-Pi client reads: HTTP status, `success`, and the user record. -/
structure VerifyResponse where
  status : Nat
  success : Bool
  user : Option UserRecord
deriving DecidableEq, Repr

/-- Embedding of `verify_user` from `Backend/server.py`: builds a query on the `users`
table filtered by `is_active`, by `pin_code` when it is truthy (present and
non-empty), and by `fingerprint_id` when it is not `None`; answers 401 with
`success = false` when no row matches, else 200 with the first matching row.
`face_match` is read from the request body but never added to the query.
(The access-log insert and the Telegram notification do not touch the
response and are omitted here.) -/
def verify_user (db : List UserRecord) (pin_code : Option String)
    (fingerprint_id : Option Nat) (face_match : Option String) : VerifyResponse :=
  let _ := face_match
  let rows := db.filter (fun u =>
    u.is_active
      && (match pin_code with
          | none => true
          | some p => if p.isEmpty then true else u.pin_code == p)
      && (match fingerprint_id with
          | none => true
          | some fid => u.fingerprint_id == fid))
  match rows with
  | [] => { status := 401, success := false, user := none }
  | u :: _ => { status := 200, success := true, user := some u }

/-! ## Hardware keypad: hardware_keypad.py `HardwareKeypad.check_pin_input` -/

/-- The debouncing state the method keeps on the keypad object:
`last_key_pressed` and `last_key_time` (seconds). -/
structure KeypadState where
  last_key_pressed : List String
  last_key_time : ℚ
deriving DecidableEq, Repr

/-- Embedding of `HardwareKeypad.check_pin_input`: given the key set read from the matrix
this call, accept the first pressed key when the set is non-empty and either
differs from the last observed set or strictly more than 0.3 s have passed
since the last accepted key; when no key is pressed, reset the last-observed
set.  Returns the accepted key (if any) and the updated debounce state. -/
def hardware_check_pin_input (s : KeypadState) (now : ℚ) (pressed_keys : List String) :
    Option String × KeypadState :=
  if pressed_keys ≠ [] ∧ (pressed_keys ≠ s.last_key_pressed ∨ now - s.last_key_time > 3/10) then
    (pressed_keys.head?, { last_key_pressed := pressed_keys, last_key_time := now })
  else if pressed_keys = [] then
    (none, { s with last_key_pressed := [] })
  else
    (none, s)

/-! ## UnlockDoor PIN capture: gui_app.py `UnlockDoor.check_pin_input` -/

/-- One accepted key fed into `UnlockDoor.check_pin_input` (keypad keys are
the single characters 0-9, A-D, `*`, `#`).  Returns the new `self.pin` and
whether the call returned the `verify_pin` action: `#` submits only when the
pin has exactly 4 characters, `*` clears, a digit is appended only while the
pin is shorter than 4 characters, anything else is ignored. -/
def unlock_check_pin_input (pin : List Char) (key : Char) : List Char × Bool :=
  if key = '#' then
    (pin, decide (pin.length = 4))
  else if key = '*' then
    ([], false)
  else if key.isDigit ∧ pin.length < 4 then
    (pin ++ [key], false)
  else
    (pin, false)

/-- Folding a key sequence through `UnlockDoor.check_pin_input` starting from
a pin buffer and a submitted flag; once the `verify_pin` action fires,
`pin_input_active` is cleared and later keys are not processed. -/
def runPin : List Char × Bool → List Char → List Char × Bool
  | st, [] => st
  | (pin, submitted), k :: ks =>
    if submitted then (pin, submitted)
    else runPin (unlock_check_pin_input pin k) ks

/-! ## Face matcher: return_face.py `FaceRecognition._process_frame` -/

/-- The matcher configuration: the names paired with the known encoding set,
and the optional `authorized_names` allow-list. -/
structure FaceRecModel where
  known_face_names : List String
  authorized_names : Option (List String)
deriving DecidableEq, Repr

/-- Model of `np.argmin`: index of the first occurrence of the minimum of the list
(0 on the empty list, matching numpy only on non-empty input, which is the
only way the source calls it). -/
def argminIdx : List ℚ → Nat
  | [] => 0
  | [_] => 0
  | d :: e :: rest =>
    let j := argminIdx (e :: rest)
    if d ≤ (e :: rest).getD j 0 then 0 else j + 1

/-- The `authorized_names` check of `_process_frame`: accepted when no
allow-list is configured or the name is in it. -/
def authOk (m : FaceRecModel) (name : String) : Bool :=
  match m.authorized_names with
  | none => true
  | some allow => allow.contains name

/-- Embedding of `FaceRecognition._process_frame`, with the external face pipeline
abstracted: the frame is represented by, for each detected face, the vector
of `face_distance` values of its encoding against the known encoding set.
For each face in order: when the known set is non-empty and the distance at
the argmin index is strictly below 0.6, take the name at that index and
return it if it passes the allow-list; otherwise continue with the next
face; return "Unknown" when no face qualifies (in particular when no face
was detected). -/
def process_frame (m : FaceRecModel) : List (List ℚ) → String
  | [] => "Unknown"
  | dists :: rest =>
    if 0 < dists.length then
      let best := argminIdx dists
      if dists.getD best 0 < 3/5 then
        let name := m.known_face_names.getD best "Unknown"
        if authOk m name then name else process_frame m rest
      else process_frame m rest
    else process_frame m rest

/-! ## Servo lock: servo/rotate.py `DoorLock` -/

/-- What the servo hardware does during one `operate_lock` cycle. -/
inductive ServoSig
  | ok
  | unlockRaise
  | lockRaise
deriving DecidableEq, Repr

/-- Embedding of `DoorLock.unlock`: rotates to -90; its own try/except turns a servo
error into a `False` return. -/
def doorlock_unlock (sig : ServoSig) : Bool :=
  match sig with
  | ServoSig.unlockRaise => false
  | _ => true

/-- Embedding of `DoorLock.lock`: rotates back to 90; its own try/except turns a servo
error into a `False` return. -/
def doorlock_lock (sig : ServoSig) : Bool :=
  match sig with
  | ServoSig.lockRaise => false
  | _ => true

/-- Embedding of `DoorLock.operate_lock`: runs the unlock-then-lock cycle; because
`unlock` and `lock` swallow their own exceptions (and their return values
are ignored), the cycle returns `True` on every servo signal. -/
def operate_lock (sig : ServoSig) : Bool :=
  let _ := doorlock_unlock sig
  let _ := doorlock_lock sig
  true

/-! ## Unlock session state machine: gui_app.py `UnlockDoor` + the main loop -/

/-- The field `self.unlock_step`: which processing method the dispatcher calls. -/
inductive UStep
  | face
  | fingerprint
  | verify
  | unlock
deriving DecidableEq, Repr

/-- The field `self.unlock_state` as the main loop drives it; `crashed`
models an exception escaping the step methods uncaught (the main loop has
no handler, so the app terminates): an absorbing state that is never
processed again and delivers no result and no log. -/
inductive UState
  | processing
  | failed
  | completed
  | idle
  | crashed
deriving DecidableEq, Repr

/-- The distinct user-facing result messages of the unlock step methods. -/
inductive Msg
  | faceTimeoutMsg
  | cameraErrMsg
  | faceErrMsg
  | fpTimeoutMsg
  | fpMismatchMsg
  | fpErrorMsg
  | authFailedMsg
  | welcomeMsg
deriving DecidableEq, Repr

/-- What one processing method returns to the main loop: `None` (keep
polling next tick) or a `(success, message)` pair. -/
inductive StepResult
  | pending
  | done (success : Bool) (msg : Msg)
deriving DecidableEq, Repr

/-- An access-log record as `log_access` posts it. -/
structure LogEntry where
  user_id : Option Nat
  access_type : String
  method : String
  notes : Option String
deriving DecidableEq, Repr

/-- What the camera frame / face matcher did on this poll: `_process_frame`
returned a name string, or the face-recognition block raised. -/
inductive FaceSig
  | frameResult (name : String)
  | procError
deriving DecidableEq, Repr

/-- What the fingerprint sensor protocol did on this poll: `get_image` saw
no finger, `image_2_tz` failed, `finger_search` missed, matched slot `fid`,
or the block raised (including `FingerprintSensor()` construction). -/
inductive FpSig
  | noFinger
  | convertFail
  | mismatch
  | matched (fid : Nat)
  | sensorError
deriving DecidableEq, Repr

/-- The JSON body of the verify response as the client parses it:
unparseable, or an object with optional `success` and `user` fields. -/
inductive JsonBody
  | malformed
  | fields (success : Option Bool) (user : Option UserRecord)
deriving DecidableEq, Repr

/-- The outcome of the `requests.post` to `/api/verify-user`. -/
inductive HttpResp
  | networkError
  | resp (status : Nat) (body : JsonBody)
deriving DecidableEq, Repr

/-- The mutable fields of the `UnlockDoor` object that the unlock session
reads and writes.  The hardware handles (`hardware_keypad`, `camera`,
`fp_sensor`, `face_recognition_obj`) are tracked as held/not-held booleans;
`fingerprint_start_time = none` models the attribute being absent
(`hasattr` false). -/
structure UnlockDoorState where
  pin : List Char
  unlock_step : UStep
  unlock_state : UState
  hardware_keypad : Bool
  camera : Bool
  face_recognition_obj : Bool
  fp_sensor : Bool
  face_name : Option String
  fingerprint_id : Option Nat
  fingerprint_attempts : Nat
  face_start_time : ℚ
  fingerprint_start_time : Option ℚ
  user_data : Option UserRecord
deriving DecidableEq, Repr

/-- A fresh `UnlockDoor()` object, as the main loop constructs when it
returns to the main menu (no handle held, no session processing; the
`unlock_*` attributes are unset until `verify_and_unlock`, modelled by
their initial values with `unlock_state = idle` so no processing runs). -/
def initUnlockDoor : UnlockDoorState :=
  { pin := []
    unlock_step := UStep.face
    unlock_state := UState.idle
    hardware_keypad := false
    camera := false
    face_recognition_obj := false
    fp_sensor := false
    face_name := none
    fingerprint_id := none
    fingerprint_attempts := 0
    face_start_time := 0
    fingerprint_start_time := none
    user_data := none }

/-- Embedding of `UnlockDoor.verify_and_unlock` followed by the main loop setting
`unlock_state = "processing"`: the session enters the face step with the
attempt counter and biometric results reset and the 15 s face window
anchored at `now`. -/
def verify_and_unlock (s : UnlockDoorState) (now : ℚ) : UnlockDoorState :=
  { s with
    unlock_state := UState.processing
    unlock_step := UStep.face
    face_name := none
    fingerprint_id := none
    fingerprint_attempts := 0
    face_recognition_obj := false
    face_start_time := now }

/-- Embedding of `UnlockDoor.process_face_step` (hardware modules present).  Checks the
15 s window first and fails with the timeout message, leaving every handle
as it was; otherwise initializes the camera if not yet held (`camOk` is
whether `Picamera2()` succeeded), creates the face-recognition object if
needed, and acts on the matcher result: a name other than "Unknown" stores
it, drops the matcher object, attempts to stop and close the camera —
the stop/close calls sit in a try whose except handler only prints, so
when they raise (`camRelOk = false`) the camera stays held — and moves to
the fingerprint step with the attempt counter reset; "Unknown" keeps
polling; a raised matcher exception fails the session (camera left as
is). -/
def process_face_step (s : UnlockDoorState) (now : ℚ) (camOk : Bool) (camRelOk : Bool)
    (sig : FaceSig) : UnlockDoorState × StepResult :=
  if now - s.face_start_time > 15 then
    ({ s with unlock_state := UState.failed }, StepResult.done false Msg.faceTimeoutMsg)
  else
    let s := { s with camera := s.camera || camOk }
    if s.camera = false then
      ({ s with unlock_state := UState.failed }, StepResult.done false Msg.cameraErrMsg)
    else
      let s := { s with face_recognition_obj := true }
      match sig with
      | FaceSig.frameResult name =>
        if name ≠ "Unknown" then
          ({ s with
              face_name := some name
              face_recognition_obj := false
              camera := if camRelOk then false else s.camera
              unlock_step := UStep.fingerprint
              fingerprint_attempts := 0 }, StepResult.pending)
        else
          (s, StepResult.pending)
      | FaceSig.procError =>
        ({ s with unlock_state := UState.failed }, StepResult.done false Msg.faceErrMsg)

/-- Embedding of `UnlockDoor.process_fingerprint_step` (hardware modules present).
Tries to stop and close the camera first if still held — the cleanup is a
try whose except handler only prints, so when stop/close raises
(`camRelOk = false`) the camera stays held; sets the per-attempt start
time if absent; on a per-attempt 10 s timeout increments the counter and
fails at 3 (else resets the deadline); otherwise creates the sensor object
if needed and acts on the protocol signal: a match records the slot id,
drops the sensor, deletes the start time and moves to the verify step; a
mismatch or a raised exception drops the sensor, increments the counter and
fails at 3 (else resets the deadline); no finger or a failed template
conversion keeps polling with the sensor held. -/
def process_fingerprint_step (s : UnlockDoorState) (now : ℚ) (camRelOk : Bool)
    (sig : FpSig) : UnlockDoorState × StepResult :=
  let s := { s with camera := if camRelOk then false else s.camera }
  let start := s.fingerprint_start_time.getD now
  let s := { s with fingerprint_start_time := some start }
  if now - start > 10 then
    let a := s.fingerprint_attempts + 1
    if 3 ≤ a then
      ({ s with fingerprint_attempts := a, unlock_state := UState.failed },
       StepResult.done false Msg.fpTimeoutMsg)
    else
      ({ s with fingerprint_attempts := a, fingerprint_start_time := some now },
       StepResult.pending)
  else
    match sig with
    | FpSig.matched fid =>
      ({ s with
          fp_sensor := false
          fingerprint_id := some fid
          fingerprint_start_time := none
          unlock_step := UStep.verify }, StepResult.pending)
    | FpSig.mismatch =>
      let a := s.fingerprint_attempts + 1
      if 3 ≤ a then
        ({ s with
            fp_sensor := false
            fingerprint_attempts := a
            fingerprint_start_time := none
            unlock_state := UState.failed }, StepResult.done false Msg.fpMismatchMsg)
      else
        ({ s with
            fp_sensor := false
            fingerprint_attempts := a
            fingerprint_start_time := some now }, StepResult.pending)
    | FpSig.noFinger => ({ s with fp_sensor := true }, StepResult.pending)
    | FpSig.convertFail => ({ s with fp_sensor := true }, StepResult.pending)
    | FpSig.sensorError =>
      let a := s.fingerprint_attempts + 1
      if 3 ≤ a then
        ({ s with
            fp_sensor := false
            fingerprint_attempts := a
            fingerprint_start_time := none
            unlock_state := UState.failed }, StepResult.done false Msg.fpErrorMsg)
      else
        ({ s with
            fp_sensor := false
            fingerprint_attempts := a
            fingerprint_start_time := some now }, StepResult.pending)

/-- Embedding of `verify_user_for_unlock` from gui_app.py: `(success, user)` is
the pair of the success flag (defaulting to False) and the user field
of the parsed JSON only for a 200
response with a parseable body; a non-200 status, an unparseable body
(`response.json()` raises) or a network error yields `(False, None)`. -/
def verify_user_for_unlock (r : HttpResp) : Bool × Option UserRecord :=
  match r with
  | HttpResp.networkError => (false, none)
  | HttpResp.resp status body =>
    if status = 200 then
      match body with
      | JsonBody.malformed => (false, none)
      | JsonBody.fields success user => (success.getD false, user)
    else
      (false, none)

/-- The access-log record `process_verify_step` posts on rejection. -/
def failedCombinedLog : LogEntry :=
  { user_id := none
    access_type := "failed_combined"
    method := "gui"
    notes := some "Authentication failed" }

/-- Embedding of `UnlockDoor.process_verify_step`: one remote verification call; on
success stores the user record and moves to the final unlock step; on
rejection posts a `failed_combined` access-log record and fails. -/
def process_verify_step (s : UnlockDoorState) (r : HttpResp) :
    UnlockDoorState × StepResult × List LogEntry :=
  let v := verify_user_for_unlock r
  if v.1 then
    ({ s with user_data := v.2, unlock_step := UStep.unlock }, StepResult.pending, [])
  else
    ({ s with unlock_state := UState.failed },
     StepResult.done false Msg.authFailedMsg, [failedCombinedLog])

/-- What `DoorLock().operate_lock()` did: ran the cycle (with the given
servo behaviour), or raised (construction included). -/
inductive LockSig
  | works (servo : ServoSig)
  | raiseError
deriving DecidableEq, Repr

/-- Embedding of `UnlockDoor.process_unlock_step_final`: runs `DoorLock().operate_lock()`
inside a try/except whose handler only prints, then reads the user id with
`self.user_data.get` — when `user_data` is `None` that call raises
AttributeError which nothing catches, so the app crashes with no access
log and no completed state (the absorbing `crashed` state, with no
result delivered) — and otherwise posts the success access-log record and
completes the session. -/
def process_unlock_step_final (s : UnlockDoorState) (sig : LockSig) :
    UnlockDoorState × StepResult × List LogEntry :=
  let _ := match sig with
           | LockSig.works servo => operate_lock servo
           | LockSig.raiseError => false
  match s.user_data with
  | none =>
    ({ s with unlock_state := UState.crashed }, StepResult.pending, [])
  | some u =>
    ({ s with unlock_state := UState.completed },
     StepResult.done true Msg.welcomeMsg,
     [{ user_id := some u.user_id
        access_type := "success"
        method := "gui"
        notes := none }])

/-- The oracle values for one tick: the wall clock and what each external
capability did if polled on this tick. -/
structure TickIn where
  now : ℚ
  camOk : Bool
  camRelOk : Bool
  faceSig : FaceSig
  fpSig : FpSig
  resp : HttpResp
  lockSig : LockSig

/-- Embedding of `UnlockDoor.process_unlock_step`: dispatch on `unlock_step`. -/
def process_unlock_step (s : UnlockDoorState) (t : TickIn) :
    UnlockDoorState × StepResult × List LogEntry :=
  match s.unlock_step with
  | UStep.face =>
    let r := process_face_step s t.now t.camOk t.camRelOk t.faceSig
    (r.1, r.2, [])
  | UStep.fingerprint =>
    let r := process_fingerprint_step s t.now t.camRelOk t.fpSig
    (r.1, r.2, [])
  | UStep.verify => process_verify_step s t.resp
  | UStep.unlock => process_unlock_step_final s t.lockSig

/-- One iteration of the async-unlock block of the main loop: when the session
is processing, run one step; a pending result keeps the state; a failure
message sets `unlock_state = "idle"`; a success message returns to the main
menu and replaces the screen with a fresh `UnlockDoor()` (the old object is
discarded as is). -/
def mainTick (s : UnlockDoorState) (t : TickIn) : UnlockDoorState × List LogEntry :=
  if s.unlock_state = UState.processing then
    let r := process_unlock_step s t
    match r.2.1 with
    | StepResult.pending => (r.1, r.2.2)
    | StepResult.done success _ =>
      if success then (initUnlockDoor, r.2.2)
      else ({ r.1 with unlock_state := UState.idle }, r.2.2)
  else
    (s, [])

/-- Iterated `mainTick`, keeping only the session state. -/
def runTicks : UnlockDoorState → List TickIn → UnlockDoorState
  | s, [] => s
  | s, t :: ts => runTicks (mainTick s t).1 ts

/-- One tick restricted to the fingerprint step: the step method runs only
while the session is processing and in the fingerprint step (the dispatcher
does not call it otherwise). -/
def runFpTick (s : UnlockDoorState) (now : ℚ) (camRelOk : Bool) (sig : FpSig) :
    UnlockDoorState :=
  if s.unlock_state = UState.processing ∧ s.unlock_step = UStep.fingerprint then
    (process_fingerprint_step s now camRelOk sig).1
  else s

/-- Iterated `runFpTick` over a list of (time, camera-release outcome,
sensor signal) ticks. -/
def runFpTicks : UnlockDoorState → List (ℚ × Bool × FpSig) → UnlockDoorState
  | s, [] => s
  | s, t :: ts => runFpTicks (runFpTick s t.1 t.2.1 t.2.2) ts

/-- The on-screen "back" action on the unlock screen:
`UnlockDoor.handle_click` calls `cleanup_keypad()` and returns the back
action, and the back branch of the main loop for the unlock screen calls
`cleanup_keypad()` again before discarding the session object.  No other
handle is touched. -/
def handle_back_unlock (s : UnlockDoorState) : UnlockDoorState :=
  { s with hardware_keypad := false }

/-! ## Concrete session states used by the closed theorems below -/

/-- A tick on which the camera initializes fine and the matcher reports no
known face (the other oracle fields are irrelevant in the face step). -/
def demoFaceTick : TickIn :=
  { now := 1
    camOk := true
    camRelOk := true
    faceSig := FaceSig.frameResult "Unknown"
    fpSig := FpSig.noFinger
    resp := HttpResp.networkError
    lockSig := LockSig.raiseError }

/-- The session state after starting an unlock at time 0 and one face tick:
still processing in the face step, with the camera held. -/
def camHeldFaceState : UnlockDoorState :=
  (mainTick (verify_and_unlock initUnlockDoor 0) demoFaceTick).1

/-- A session state as the fingerprint step is entered: processing, in the
fingerprint step, attempt counter freshly reset. -/
def fpEntryDemo : UnlockDoorState :=
  { initUnlockDoor with
    unlock_state := UState.processing
    unlock_step := UStep.fingerprint }

/-- A concrete user record as the backend returns it on success. -/
def demoUser : UserRecord :=
  { user_id := 7
    name := "alice"
    email := "alice"
    pin_code := "1234"
    fingerprint_id := 7
    is_active := true }

/-- A tick on which the face is recognized but the camera stop/close calls
raise (the except handler only prints, so the camera stays held). -/
def relFailFaceTick : TickIn :=
  { now := 1
    camOk := true
    camRelOk := false
    faceSig := FaceSig.frameResult "alice"
    fpSig := FpSig.noFinger
    resp := HttpResp.networkError
    lockSig := LockSig.raiseError }

/-- A fingerprint-step tick on which the camera cleanup raises again and the
sensor poll sees no finger (so the sensor object is created and kept). -/
def relFailFpTick : TickIn :=
  { now := 2
    camOk := true
    camRelOk := false
    faceSig := FaceSig.frameResult "Unknown"
    fpSig := FpSig.noFinger
    resp := HttpResp.networkError
    lockSig := LockSig.raiseError }

/-- The session state reached after a face success whose camera release
raised, followed by one fingerprint tick whose camera cleanup raised: the
camera is still held and the fingerprint-sensor object has been created. -/
def bothHeldState : UnlockDoorState :=
  runTicks (verify_and_unlock initUnlockDoor 0) [relFailFaceTick, relFailFpTick]

def CamFpInv (s : UnlockDoorState) : Prop :=
  (s.unlock_step = UStep.face → s.fp_sensor = false) ∧
  (s.camera = false ∨ s.fp_sensor = false)

def FpInv (s : UnlockDoorState) : Prop :=
  s.fingerprint_attempts ≤ 3 ∧
  ((s.unlock_state = UState.failed ∧ s.unlock_step = UStep.fingerprint) ↔
    s.fingerprint_attempts = 3) ∧
  (s.unlock_state = UState.processing ∧ s.unlock_step = UStep.fingerprint →
    s.fingerprint_attempts ≤ 2)

theorem face_step_fp_sensor (s : UnlockDoorState) (now : ℚ) (camOk camRelOk : Bool)
    (sig : FaceSig) :
    (process_face_step s now camOk camRelOk sig).1.fp_sensor = s.fp_sensor := by
  unfold process_face_step
  cases sig <;> (dsimp only; split_ifs <;> rfl)

theorem fp_step_camera (s : UnlockDoorState) (now : ℚ) (sig : FpSig) :
    (process_fingerprint_step s now true sig).1.camera = false := by
  unfold process_fingerprint_step
  cases sig <;> (dsimp only; split_ifs <;> simp_all)

theorem face_step_cases (s : UnlockDoorState) (now : ℚ) (camOk : Bool) (sig : FaceSig) :
    (process_face_step s now camOk true sig).1.unlock_step = s.unlock_step ∨
    ((process_face_step s now camOk true sig).1.unlock_step = UStep.fingerprint ∧
      (process_face_step s now camOk true sig).1.camera = false) := by
  unfold process_face_step
  cases sig <;> (dsimp only; split_ifs <;> simp_all)

theorem face_step_step_cases (s : UnlockDoorState) (now : ℚ) (camOk camRelOk : Bool)
    (sig : FaceSig) :
    (process_face_step s now camOk camRelOk sig).1.unlock_step = s.unlock_step ∨
    (process_face_step s now camOk camRelOk sig).1.unlock_step = UStep.fingerprint := by
  unfold process_face_step
  cases sig <;> (dsimp only; split_ifs <;> simp_all)

theorem face_step_unknown_keeps_step (s : UnlockDoorState) (now : ℚ)
    (camOk camRelOk : Bool) :
    (process_face_step s now camOk camRelOk (FaceSig.frameResult "Unknown")).1.unlock_step
      = s.unlock_step := by
  unfold process_face_step
  dsimp only
  split_ifs <;> simp_all

theorem face_step_no_success (s : UnlockDoorState) (now : ℚ) (camOk camRelOk : Bool)
    (sig : FaceSig) (b : Bool) (m : Msg) :
    (process_face_step s now camOk camRelOk sig).2 = StepResult.done b m → b = false := by
  unfold process_face_step
  cases sig <;> (dsimp only; split_ifs <;> simp_all)

theorem fp_step_cases (s : UnlockDoorState) (now : ℚ) (camRelOk : Bool) (sig : FpSig) :
    (process_fingerprint_step s now camRelOk sig).1.unlock_step = s.unlock_step ∨
    (process_fingerprint_step s now camRelOk sig).1.unlock_step = UStep.verify := by
  unfold process_fingerprint_step
  cases sig <;> (dsimp only; split_ifs <;> simp)

theorem verify_step_fields (s : UnlockDoorState) (r : HttpResp) :
    (process_verify_step s r).1.camera = s.camera ∧
    (process_verify_step s r).1.fp_sensor = s.fp_sensor ∧
    ((process_verify_step s r).1.unlock_step = s.unlock_step ∨
      (process_verify_step s r).1.unlock_step = UStep.unlock) := by
  unfold process_verify_step
  dsimp only
  split_ifs <;> simp

theorem final_step_fields (s : UnlockDoorState) (sig : LockSig) :
    (process_unlock_step_final s sig).1.camera = s.camera ∧
    (process_unlock_step_final s sig).1.fp_sensor = s.fp_sensor ∧
    (process_unlock_step_final s sig).1.unlock_step = s.unlock_step := by
  unfold process_unlock_step_final
  rcases hu : s.user_data with _ | u <;> simp [hu]

theorem camfp_init : CamFpInv initUnlockDoor := by
  constructor <;> simp [initUnlockDoor]

theorem camfp_mainTick (s : UnlockDoorState) (t : TickIn) (hrel : t.camRelOk = true)
    (h : CamFpInv s) :
    CamFpInv (mainTick s t).1 := by
  obtain ⟨h1, h2⟩ := h
  unfold mainTick
  split_ifs with hp
  · unfold process_unlock_step
    cases hstep : s.unlock_step
    next =>
      have hfp : (process_face_step s t.now t.camOk t.camRelOk t.faceSig).1.fp_sensor = false := by
        rw [face_step_fp_sensor]; exact h1 hstep
      dsimp only
      rcases hr : (process_face_step s t.now t.camOk t.camRelOk t.faceSig).2 with _ | ⟨b, m⟩ <;>
        simp only [hr]
      · exact ⟨fun _ => hfp, Or.inr hfp⟩
      · cases b
        · simp only [Bool.false_eq_true, if_false]
          exact ⟨fun _ => hfp, Or.inr hfp⟩
        · simp only [if_true]
          exact camfp_init
    next =>
      have hcam : (process_fingerprint_step s t.now t.camRelOk t.fpSig).1.camera = false := by
        rw [hrel]
        exact fp_step_camera s t.now t.fpSig
      have hst := fp_step_cases s t.now t.camRelOk t.fpSig
      rw [hstep] at hst
      dsimp only
      rcases hr : (process_fingerprint_step s t.now t.camRelOk t.fpSig).2 with _ | ⟨b, m⟩ <;>
        simp only [hr]
      · refine ⟨fun hf => ?_, Or.inl hcam⟩
        rcases hst with hst | hst <;> rw [hf] at hst <;> exact absurd hst (by simp)
      · cases b
        · simp only [Bool.false_eq_true, if_false]
          refine ⟨fun hf => ?_, Or.inl hcam⟩
          rcases hst with hst | hst <;> rw [show ({ (process_fingerprint_step s t.now t.camRelOk t.fpSig).1 with unlock_state := UState.idle } : UnlockDoorState).unlock_step = (process_fingerprint_step s t.now t.camRelOk t.fpSig).1.unlock_step from rfl] at hf <;>
            rw [hf] at hst <;> exact absurd hst (by simp)
        · simp only [if_true]
          exact camfp_init
    next =>
      obtain ⟨hc, hf, hst⟩ := verify_step_fields s t.resp
      rw [hstep] at hst
      dsimp only
      rcases hr : (process_verify_step s t.resp).2.1 with _ | ⟨b, m⟩ <;> simp only [hr]
      · refine ⟨fun hface => ?_, ?_⟩
        · rcases hst with hst | hst <;> rw [hface] at hst <;> exact absurd hst (by simp)
        · rw [hc, hf]; exact h2
      · cases b
        · simp only [Bool.false_eq_true, if_false]
          refine ⟨fun hface => ?_, ?_⟩
          · rcases hst with hst | hst <;> rw [show ({ (process_verify_step s t.resp).1 with unlock_state := UState.idle } : UnlockDoorState).unlock_step = (process_verify_step s t.resp).1.unlock_step from rfl] at hface <;>
              rw [hface] at hst <;> exact absurd hst (by simp)
          · show (process_verify_step s t.resp).1.camera = false ∨
              (process_verify_step s t.resp).1.fp_sensor = false
            rw [hc, hf]; exact h2
        · simp only [if_true]
          exact camfp_init
    next =>
      obtain ⟨hc, hf, hst⟩ := final_step_fields s t.lockSig
      rw [hstep] at hst
      dsimp only
      rcases hr : (process_unlock_step_final s t.lockSig).2.1 with _ | ⟨b, m⟩ <;> simp only [hr]
      · refine ⟨fun hface => ?_, ?_⟩
        · rw [hface] at hst; exact absurd hst (by simp)
        · rw [hc, hf]; exact h2
      · cases b
        · simp only [Bool.false_eq_true, if_false]
          refine ⟨fun hface => ?_, ?_⟩
          · rw [show ({ (process_unlock_step_final s t.lockSig).1 with unlock_state := UState.idle } : UnlockDoorState).unlock_step = (process_unlock_step_final s t.lockSig).1.unlock_step from rfl] at hface
            rw [hface] at hst; exact absurd hst (by simp)
          · show (process_unlock_step_final s t.lockSig).1.camera = false ∨
              (process_unlock_step_final s t.lockSig).1.fp_sensor = false
            rw [hc, hf]; exact h2
        · simp only [if_true]
          exact camfp_init
  · exact ⟨h1, h2⟩

theorem camfp_runTicks (s : UnlockDoorState) (ticks : List TickIn)
    (hrel : ∀ t ∈ ticks, t.camRelOk = true) (h : CamFpInv s) :
    CamFpInv (runTicks s ticks) := by
  induction ticks generalizing s with
  | nil => exact h
  | cons t ts ih =>
    exact ih _ (fun u hu => hrel u (by simp [hu]))
      (camfp_mainTick s t (hrel t (by simp)) h)

theorem fpinv_runFpTick (s : UnlockDoorState) (now : ℚ) (camRelOk : Bool) (sig : FpSig)
    (h : FpInv s) :
    FpInv (runFpTick s now camRelOk sig) := by
  obtain ⟨hle, hiff, hproc⟩ := h
  unfold runFpTick
  split_ifs with hg
  · have ha : s.fingerprint_attempts ≤ 2 := hproc hg
    obtain ⟨hst, hfp⟩ := hg
    unfold process_fingerprint_step FpInv
    cases sig <;> (dsimp only; split_ifs <;> simp_all <;> omega)
  · exact ⟨hle, hiff, hproc⟩

theorem fpinv_runFpTicks (s : UnlockDoorState) (ticks : List (ℚ × Bool × FpSig))
    (h : FpInv s) :
    FpInv (runFpTicks s ticks) := by
  induction ticks generalizing s with
  | nil => exact h
  | cons t ts ih => exact ih _ (fpinv_runFpTick s t.1 t.2.1 t.2.2 h)

theorem mainTick_unknown_keeps_face (s : UnlockDoorState) (t : TickIn)
    (hs : s.unlock_step = UStep.face) (ht : t.faceSig = FaceSig.frameResult "Unknown") :
    (mainTick s t).1.unlock_step = UStep.face := by
  unfold mainTick
  split_ifs with hp
  · unfold process_unlock_step
    rw [hs, ht]
    dsimp only
    have hkeep := face_step_unknown_keeps_step s t.now t.camOk t.camRelOk
    rcases hr : (process_face_step s t.now t.camOk t.camRelOk (FaceSig.frameResult "Unknown")).2
      with _ | ⟨b, m⟩ <;> simp only [hr]
    · rw [hkeep, hs]
    · cases b
      · simp only [Bool.false_eq_true, if_false]
        show (process_face_step s t.now t.camOk t.camRelOk (FaceSig.frameResult "Unknown")).1.unlock_step
          = UStep.face
        rw [hkeep, hs]
      · simp only [if_true]
        rfl
  · exact hs

theorem runTicks_unknown_keeps_face (s : UnlockDoorState) (ticks : List TickIn)
    (hs : s.unlock_step = UStep.face)
    (hall : ∀ t ∈ ticks, t.faceSig = FaceSig.frameResult "Unknown") :
    (runTicks s ticks).unlock_step = UStep.face := by
  induction ticks generalizing s with
  | nil => exact hs
  | cons t ts ih =>
    exact ih _ (mainTick_unknown_keeps_face s t hs (hall t (by simp)))
      (fun u hu => hall u (by simp [hu]))

theorem argminIdx_lt_length : ∀ (l : List ℚ), l ≠ [] → argminIdx l < l.length
  | [], h => absurd rfl h
  | [_], _ => by simp [argminIdx]
  | d :: e :: rest, _ => by
    have ih := argminIdx_lt_length (e :: rest) (by simp)
    unfold argminIdx
    dsimp only
    split_ifs
    · simp
    · simpa using Nat.succ_lt_succ ih

theorem argminIdx_le : ∀ (l : List ℚ) (x : ℚ), x ∈ l → l.getD (argminIdx l) 0 ≤ x
  | [], x, hx => absurd hx (by simp)
  | [d], x, hx => by
    simp only [List.mem_singleton] at hx
    simp [argminIdx, hx]
  | d :: e :: rest, x, hx => by
    have ih := fun y hy => argminIdx_le (e :: rest) y hy
    unfold argminIdx
    dsimp only
    split_ifs with hle
    · rcases List.mem_cons.mp hx with rfl | hx2
      · simp
      · simp only [List.getD_cons_zero]
        exact le_trans hle (ih x hx2)
    · rcases List.mem_cons.mp hx with rfl | hx2
      · simp only [List.getD_cons_succ]
        exact le_of_lt (lt_of_not_le hle)
      · simp only [List.getD_cons_succ]
        exact ih x hx2

theorem getD_mem_of_lt {l : List String} {i : Nat} (h : i < l.length) (d : String) :
    l.getD i d ∈ l := by
  rw [List.getD_eq_getElem l d h]
  exact List.getElem_mem h

theorem process_frame_ne_unknown_iff (m : FaceRecModel)
    (hunk : "Unknown" ∉ m.known_face_names) :
    ∀ (faces : List (List ℚ)),
      (∀ dists ∈ faces, dists.length = m.known_face_names.length) →
      (process_frame m faces ≠ "Unknown" ↔
        ∃ dists ∈ faces, 0 < dists.length ∧
          dists.getD (argminIdx dists) 0 < 3/5 ∧
          authOk m (m.known_face_names.getD (argminIdx dists) "Unknown") = true) := by
  intro faces
  induction faces with
  | nil =>
    intro _
    simp [process_frame]
  | cons d rest ih =>
    intro hlen
    have hd : d.length = m.known_face_names.length := hlen d (by simp)
    have ih' := ih (fun x hx => hlen x (by simp [hx]))
    by_cases h1 : 0 < d.length
    · by_cases h2 : d.getD (argminIdx d) 0 < 3/5
      · by_cases h3 : authOk m (m.known_face_names.getD (argminIdx d) "Unknown") = true
        · have hres : process_frame m (d :: rest)
              = m.known_face_names.getD (argminIdx d) "Unknown" := by
            unfold process_frame
            dsimp only
            rw [if_pos h1, if_pos h2, if_pos h3]
          have hmem : m.known_face_names.getD (argminIdx d) "Unknown" ∈ m.known_face_names :=
            getD_mem_of_lt (by rw [← hd]; exact argminIdx_lt_length d (by
              intro hnil; rw [hnil] at h1; simp at h1)) _
          constructor
          · intro _
            exact ⟨d, by simp, h1, h2, h3⟩
          · intro _
            rw [hres]
            intro heq
            rw [heq] at hmem
            exact hunk hmem
        · have hres : process_frame m (d :: rest) = process_frame m rest := by
            unfold process_frame
            dsimp only
            rw [if_pos h1, if_pos h2, if_neg h3]
            cases rest <;> rfl
          rw [hres, ih']
          constructor
          · rintro ⟨x, hx, hq⟩
            exact ⟨x, by simp [hx], hq⟩
          · rintro ⟨x, hx, hq⟩
            rcases List.mem_cons.mp hx with rfl | hx2
            · exact absurd hq.2.2 h3
            · exact ⟨x, hx2, hq⟩
      · have hres : process_frame m (d :: rest) = process_frame m rest := by
          unfold process_frame
          dsimp only
          rw [if_pos h1, if_neg h2]
          cases rest <;> rfl
        rw [hres, ih']
        constructor
        · rintro ⟨x, hx, hq⟩
          exact ⟨x, by simp [hx], hq⟩
        · rintro ⟨x, hx, hq⟩
          rcases List.mem_cons.mp hx with rfl | hx2
          · exact absurd hq.2.1 h2
          · exact ⟨x, hx2, hq⟩
    · have hres : process_frame m (d :: rest) = process_frame m rest := by
        unfold process_frame
        dsimp only
        rw [if_neg h1]
        cases rest <;> rfl
      rw [hres, ih']
      constructor
      · rintro ⟨x, hx, hq⟩
        exact ⟨x, by simp [hx], hq⟩
      · rintro ⟨x, hx, hq⟩
        rcases List.mem_cons.mp hx with rfl | hx2
        · exact absurd hq.1 h1
        · exact ⟨x, hx2, hq⟩

theorem process_frame_known (m : FaceRecModel) :
    ∀ (faces : List (List ℚ)),
      (∀ dists ∈ faces, dists.length = m.known_face_names.length) →
      process_frame m faces = "Unknown" ∨ process_frame m faces ∈ m.known_face_names := by
  intro faces
  induction faces with
  | nil =>
    intro _
    left
    rfl
  | cons d rest ih =>
    intro hlen
    have hd : d.length = m.known_face_names.length := hlen d (by simp)
    have ih' := ih (fun x hx => hlen x (by simp [hx]))
    by_cases h1 : 0 < d.length
    · by_cases h2 : d.getD (argminIdx d) 0 < 3/5
      · by_cases h3 : authOk m (m.known_face_names.getD (argminIdx d) "Unknown") = true
        · right
          have hres : process_frame m (d :: rest)
              = m.known_face_names.getD (argminIdx d) "Unknown" := by
            unfold process_frame
            dsimp only
            rw [if_pos h1, if_pos h2, if_pos h3]
          rw [hres]
          exact getD_mem_of_lt (by rw [← hd]; exact argminIdx_lt_length d (by
            intro hnil; rw [hnil] at h1; simp at h1)) _
        · have hres : process_frame m (d :: rest) = process_frame m rest := by
            unfold process_frame
            dsimp only
            rw [if_pos h1, if_pos h2, if_neg h3]
            cases rest <;> rfl
          rw [hres]
          exact ih'
      · have hres : process_frame m (d :: rest) = process_frame m rest := by
          unfold process_frame
          dsimp only
          rw [if_pos h1, if_neg h2]
          cases rest <;> rfl
        rw [hres]
        exact ih'
    · have hres : process_frame m (d :: rest) = process_frame m rest := by
        unfold process_frame
        dsimp only
        rw [if_neg h1]
        cases rest <;> rfl
      rw [hres]
      exact ih'

theorem check_pin_step_inv (pin : List Char) (k : Char)
    (hd : pin.all (fun c => c.isDigit) = true) :
    (unlock_check_pin_input pin k).1.all (fun c => c.isDigit) = true ∧
    ((unlock_check_pin_input pin k).2 = true → (unlock_check_pin_input pin k).1.length = 4) := by
  unfold unlock_check_pin_input
  split_ifs with h1 h2 h3
  · exact ⟨hd, by simp⟩
  · exact ⟨by simp, by simp⟩
  · refine ⟨?_, by simp⟩
    simp only [List.all_append, hd, Bool.true_and, List.all_cons, List.all_nil,
      Bool.and_true]
    exact h3.1
  · exact ⟨hd, by simp⟩

theorem runPin_inv : ∀ (keys : List Char) (pin : List Char) (sub : Bool),
    pin.all (fun c => c.isDigit) = true → (sub = true → pin.length = 4) →
    ((runPin (pin, sub) keys).1.all (fun c => c.isDigit) = true ∧
      ((runPin (pin, sub) keys).2 = true → (runPin (pin, sub) keys).1.length = 4))
  | [], pin, sub, hd, hs => ⟨hd, hs⟩
  | k :: ks, pin, sub, hd, hs => by
    unfold runPin
    split_ifs with hsub
    · exact ⟨hd, hs⟩
    · have hstep := check_pin_step_inv pin k hd
      exact runPin_inv ks (unlock_check_pin_input pin k).1 (unlock_check_pin_input pin k).2
        hstep.1 hstep.2

/-! ## Claim theorems -/

/-- Claim C1: the remote verification decision is independent of the face
identity — two verify-user requests agreeing on `pin_code` and
`fingerprint_id` but differing in `face_match` get the same accept/reject
decision and the same user record, because `face_match` is read but never
constrains the database query. -/
theorem c1_verify_user_face_independent (db : List UserRecord) (pin_code : Option String)
    (fingerprint_id : Option Nat) (face1 face2 : Option String) :
    verify_user db pin_code fingerprint_id face1
      = verify_user db pin_code fingerprint_id face2 :=
  rfl

/-- Claim C2 counterexample: at a reachable face-step session state that
holds the camera, the tick after the 15 s window produces the FaceTimeout
failure and never enters the fingerprint step, but the camera stays held —
the claim that the camera resource is released is false on this input. -/
theorem c2_counterexample_camera_not_released :
    camHeldFaceState.camera = true ∧
    (process_face_step camHeldFaceState 16 true true (FaceSig.frameResult "Unknown")).1.unlock_state
      = UState.failed ∧
    (process_face_step camHeldFaceState 16 true true (FaceSig.frameResult "Unknown")).2
      = StepResult.done false Msg.faceTimeoutMsg ∧
    (process_face_step camHeldFaceState 16 true true (FaceSig.frameResult "Unknown")).1.camera
      = true := by
  refine ⟨?_, ?_, ?_, ?_⟩ <;>
    norm_num [camHeldFaceState, demoFaceTick, mainTick, verify_and_unlock, initUnlockDoor,
      process_unlock_step, process_face_step]

/-- Claim C2 (amended): if the face adapter returns Unknown on every poll
and the 15 s window elapses, the face-step tick transitions the session to
the failed state with the FaceTimeout message and the fingerprint step is
never entered along the trace; the camera, however, is not released on this
path — it is left exactly as it was. -/
theorem c2_amended_face_timeout (s : UnlockDoorState) (now : ℚ) (camOk camRelOk : Bool)
    (sig : FaceSig) (ticks : List TickIn)
    (hface : s.unlock_step = UStep.face)
    (htime : now - s.face_start_time > 15)
    (hall : ∀ t ∈ ticks, t.faceSig = FaceSig.frameResult "Unknown") :
    (process_face_step s now camOk camRelOk sig).1.unlock_state = UState.failed ∧
    (process_face_step s now camOk camRelOk sig).2 = StepResult.done false Msg.faceTimeoutMsg ∧
    (process_face_step s now camOk camRelOk sig).1.camera = s.camera ∧
    (∀ pre post, ticks = pre ++ post → (runTicks s pre).unlock_step = UStep.face) := by
  have hres : process_face_step s now camOk camRelOk sig
      = ({ s with unlock_state := UState.failed }, StepResult.done false Msg.faceTimeoutMsg) := by
    unfold process_face_step
    rw [if_pos htime]
  refine ⟨by rw [hres], by rw [hres], by rw [hres], ?_⟩
  intro pre post hsplit
  refine runTicks_unknown_keeps_face s pre hface (fun t ht => hall t ?_)
  rw [hsplit]
  exact List.mem_append.mpr (Or.inl ht)

/-- Witness for the amended theorem of claim C2 at a concrete camera-holding
face-step state, a tick one second past the window, and a one-tick
all-Unknown trace. -/
theorem c2_witness_face_timeout :
    (process_face_step camHeldFaceState 16 true true (FaceSig.frameResult "Unknown")).1.unlock_state
      = UState.failed ∧
    (process_face_step camHeldFaceState 16 true true (FaceSig.frameResult "Unknown")).2
      = StepResult.done false Msg.faceTimeoutMsg ∧
    (process_face_step camHeldFaceState 16 true true
        (FaceSig.frameResult "Unknown")).1.camera = camHeldFaceState.camera ∧
    (∀ pre post, [demoFaceTick] = pre ++ post →
      (runTicks camHeldFaceState pre).unlock_step = UStep.face) :=
  c2_amended_face_timeout camHeldFaceState 16 true true (FaceSig.frameResult "Unknown")
    [demoFaceTick]
    (by norm_num [camHeldFaceState, demoFaceTick, mainTick, verify_and_unlock, initUnlockDoor,
      process_unlock_step, process_face_step])
    (by norm_num [camHeldFaceState, demoFaceTick, mainTick, verify_and_unlock, initUnlockDoor,
      process_unlock_step, process_face_step])
    (by intro t ht; rw [List.mem_singleton.mp ht]; rfl)

/-- Claim C3 counterexample: the back action arriving while a session is in
the non-terminal face step with the camera held releases only the keypad —
afterwards the camera is still held, so "every held hardware resource ...
is released" is false on this input. -/
theorem c3_counterexample_back_leaves_camera :
    camHeldFaceState.unlock_state = UState.processing ∧
    camHeldFaceState.camera = true ∧
    (handle_back_unlock camHeldFaceState).camera = true := by
  refine ⟨?_, ?_, ?_⟩ <;>
    norm_num [camHeldFaceState, demoFaceTick, mainTick, verify_and_unlock, initUnlockDoor,
      process_unlock_step, process_face_step, handle_back_unlock]

/-- Claim C3 (amended): when the back action arrives on the unlock screen,
only the hardware keypad is released within that tick; the camera handle
and the fingerprint-sensor object are left exactly as they were and are
merely dropped with the discarded session object. -/
theorem c3_amended_back_releases_only_keypad (s : UnlockDoorState) :
    (handle_back_unlock s).hardware_keypad = false ∧
    (handle_back_unlock s).camera = s.camera ∧
    (handle_back_unlock s).fp_sensor = s.fp_sensor :=
  ⟨rfl, rfl, rfl⟩

/-- Claim C4: along every sequence of fingerprint-step ticks from the entry
state of the step (counter 0, session processing), the attempt counter never
exceeds 3, and the session is in the fingerprint-exhausted failure exactly
when the counter equals 3 — after exactly 3 mismatch, error or per-attempt
timeout attempts, not 2 or 4. -/
theorem c4_fingerprint_retry_budget (s : UnlockDoorState) (ticks : List (ℚ × Bool × FpSig))
    (hstate : s.unlock_state = UState.processing)
    (_hstep : s.unlock_step = UStep.fingerprint)
    (hzero : s.fingerprint_attempts = 0) :
    (runFpTicks s ticks).fingerprint_attempts ≤ 3 ∧
    (((runFpTicks s ticks).unlock_state = UState.failed ∧
        (runFpTicks s ticks).unlock_step = UStep.fingerprint) ↔
      (runFpTicks s ticks).fingerprint_attempts = 3) := by
  have hInv : FpInv s := by
    refine ⟨by omega, ?_, by intro _; omega⟩
    constructor
    · intro hf
      rw [hstate] at hf
      exact absurd hf.1 (by simp)
    · intro h3
      omega
  have h := fpinv_runFpTicks s ticks hInv
  exact ⟨h.1, h.2.1⟩

/-- Witness for claim C4 at the concrete fingerprint-entry state and a
trace of exactly three mismatch ticks. -/
theorem c4_witness_three_mismatches :
    (runFpTicks fpEntryDemo [(0, true, FpSig.mismatch), (0, true, FpSig.mismatch),
        (0, true, FpSig.mismatch)]).fingerprint_attempts ≤ 3 ∧
    (((runFpTicks fpEntryDemo [(0, true, FpSig.mismatch), (0, true, FpSig.mismatch),
          (0, true, FpSig.mismatch)]).unlock_state = UState.failed ∧
        (runFpTicks fpEntryDemo [(0, true, FpSig.mismatch), (0, true, FpSig.mismatch),
          (0, true, FpSig.mismatch)]).unlock_step = UStep.fingerprint) ↔
      (runFpTicks fpEntryDemo [(0, true, FpSig.mismatch), (0, true, FpSig.mismatch),
        (0, true, FpSig.mismatch)]).fingerprint_attempts = 3) :=
  c4_fingerprint_retry_budget fpEntryDemo
    [(0, true, FpSig.mismatch), (0, true, FpSig.mismatch), (0, true, FpSig.mismatch)] rfl rfl rfl

/-- Claim C5: the unlock sequencer leaves the PIN-entry step only with a
code of exactly 4 decimal digits: a submitted run has a 4-character
all-digit pin; a digit key is appended exactly while the pin is shorter
than 4; a digit key at full length, and any non-digit key other than the
submit and clear controls, is ignored; `#` submits exactly at length 4 and
`*` clears. -/
theorem c5_pin_well_formed :
    (∀ keys : List Char, (runPin ([], false) keys).2 = true →
      (runPin ([], false) keys).1.length = 4 ∧
      (runPin ([], false) keys).1.all (fun c => c.isDigit) = true) ∧
    (∀ (pin : List Char) (k : Char), k.isDigit = true → pin.length < 4 →
      unlock_check_pin_input pin k = (pin ++ [k], false)) ∧
    (∀ (pin : List Char) (k : Char), k.isDigit = true → ¬pin.length < 4 →
      unlock_check_pin_input pin k = (pin, false)) ∧
    (∀ (pin : List Char) (k : Char), k.isDigit = false → k ≠ '#' → k ≠ '*' →
      unlock_check_pin_input pin k = (pin, false)) ∧
    (∀ pin : List Char, unlock_check_pin_input pin '#' = (pin, decide (pin.length = 4))) ∧
    (∀ pin : List Char, unlock_check_pin_input pin '*' = ([], false)) := by
  refine ⟨?_, ?_, ?_, ?_, ?_, ?_⟩
  · intro keys hsub
    have h := runPin_inv keys [] false rfl (by simp)
    exact ⟨h.2 hsub, h.1⟩
  · intro pin k hk hlen
    have h1 : k ≠ '#' := by intro h; rw [h] at hk; exact absurd hk (by decide)
    have h2 : k ≠ '*' := by intro h; rw [h] at hk; exact absurd hk (by decide)
    unfold unlock_check_pin_input
    rw [if_neg h1, if_neg h2, if_pos ⟨hk, hlen⟩]
  · intro pin k hk hlen
    have h1 : k ≠ '#' := by intro h; rw [h] at hk; exact absurd hk (by decide)
    have h2 : k ≠ '*' := by intro h; rw [h] at hk; exact absurd hk (by decide)
    unfold unlock_check_pin_input
    rw [if_neg h1, if_neg h2, if_neg (fun hc => hlen hc.2)]
  · intro pin k hk h1 h2
    unfold unlock_check_pin_input
    rw [if_neg h1, if_neg h2, if_neg (fun hc => by rw [hc.1] at hk; cases hk)]
  · intro pin
    unfold unlock_check_pin_input
    rw [if_pos rfl]
  · intro pin
    have h1 : ('*' : Char) ≠ '#' := by decide
    unfold unlock_check_pin_input
    rw [if_neg h1, if_pos rfl]

/-- Witness for the trace property of claim C5: entering 1 2 3 4 and submitting
with `#` yields a submitted 4-digit pin. -/
theorem c5_witness_submit_1234 :
    (runPin ([], false) ['1', '2', '3', '4', '#']).1.length = 4 ∧
    (runPin ([], false) ['1', '2', '3', '4', '#']).1.all (fun c => c.isDigit) = true :=
  c5_pin_well_formed.1 ['1', '2', '3', '4', '#'] (by decide)

/-- Claim C6: the face matcher returns a known identity name if and only if
the distance vector of some detected face against a non-empty known encoding
set, read at the index of minimum distance, is strictly below the 0.6
threshold and the name at that index passes the allow-list when one is
configured; otherwise it returns "Unknown".  The value at the argmin index
is indeed the minimum of the vector.  (The name lists are assumed not to
contain the sentinel "Unknown" and to be aligned with the encoding set.) -/
theorem c6_face_threshold (m : FaceRecModel) (faces : List (List ℚ))
    (hlen : ∀ dists ∈ faces, dists.length = m.known_face_names.length)
    (hunk : "Unknown" ∉ m.known_face_names) :
    (process_frame m faces ≠ "Unknown" ↔
      ∃ dists ∈ faces, 0 < dists.length ∧
        dists.getD (argminIdx dists) 0 < 3/5 ∧
        authOk m (m.known_face_names.getD (argminIdx dists) "Unknown") = true) ∧
    (process_frame m faces ≠ "Unknown" → process_frame m faces ∈ m.known_face_names) ∧
    (∀ (dists : List ℚ) (x : ℚ), x ∈ dists → dists.getD (argminIdx dists) 0 ≤ x) := by
  refine ⟨process_frame_ne_unknown_iff m hunk faces hlen, ?_,
    fun dists x hx => argminIdx_le dists x hx⟩
  intro hne
  rcases process_frame_known m faces hlen with h | h
  · exact absurd h hne
  · exact h

/-- Witness for claim C6 with one known user at distance 1/2 and no
allow-list. -/
theorem c6_witness_alice :
    (process_frame ⟨["alice"], none⟩ [[(1:ℚ)/2]] ≠ "Unknown" ↔
      ∃ dists ∈ [[(1:ℚ)/2]], 0 < dists.length ∧
        dists.getD (argminIdx dists) 0 < 3/5 ∧
        authOk ⟨["alice"], none⟩
          ((["alice"] : List String).getD (argminIdx dists) "Unknown") = true) ∧
    (process_frame ⟨["alice"], none⟩ [[(1:ℚ)/2]] ≠ "Unknown" →
      process_frame ⟨["alice"], none⟩ [[(1:ℚ)/2]] ∈ (["alice"] : List String)) ∧
    (∀ (dists : List ℚ) (x : ℚ), x ∈ dists → dists.getD (argminIdx dists) 0 ≤ x) :=
  c6_face_threshold ⟨["alice"], none⟩ [[(1:ℚ)/2]] (by simp) (by decide)

/-- Claim C7: a remote verification response with a non-200 status, a
malformed body, or a network error is treated as a rejection; the verify
step reports success exactly for a 200 response whose JSON body has
`success = true`; and on any rejection the session fails with the
authentication-failed message and emits the `failed_combined` access-log
entry. -/
theorem c7_reject_on_bad_response :
    (∀ (status : Nat) (body : JsonBody), status ≠ 200 →
      (verify_user_for_unlock (HttpResp.resp status body)).1 = false) ∧
    (verify_user_for_unlock HttpResp.networkError).1 = false ∧
    (∀ status : Nat,
      (verify_user_for_unlock (HttpResp.resp status JsonBody.malformed)).1 = false) ∧
    (∀ r : HttpResp, (verify_user_for_unlock r).1 = true ↔
      ∃ user, r = HttpResp.resp 200 (JsonBody.fields (some true) user)) ∧
    (∀ (s : UnlockDoorState) (r : HttpResp), (verify_user_for_unlock r).1 = false →
      (process_verify_step s r).1.unlock_state = UState.failed ∧
      (process_verify_step s r).2.1 = StepResult.done false Msg.authFailedMsg ∧
      (process_verify_step s r).2.2 = [failedCombinedLog]) := by
  refine ⟨?_, rfl, ?_, ?_, ?_⟩
  · intro status body hs
    unfold verify_user_for_unlock
    dsimp only
    rw [if_neg hs]
  · intro status
    unfold verify_user_for_unlock
    dsimp only
    split_ifs <;> rfl
  · intro r
    rcases r with _ | ⟨status, body⟩
    · simp [verify_user_for_unlock]
    · rcases body with _ | ⟨succ, user⟩
      · unfold verify_user_for_unlock
        dsimp only
        split_ifs <;> simp
      · unfold verify_user_for_unlock
        dsimp only
        split_ifs with h200
        · subst h200
          rcases succ with _ | b
          · simp
          · cases b <;> simp
        · simp [h200]
  · intro s r hr
    unfold process_verify_step
    dsimp only
    rw [hr]
    simp

/-- Witness for claim C7 at a concrete 500 malformed response and a network
error during the verify step. -/
theorem c7_witness_rejects :
    (verify_user_for_unlock (HttpResp.resp 500 JsonBody.malformed)).1 = false ∧
    (process_verify_step initUnlockDoor HttpResp.networkError).1.unlock_state
      = UState.failed ∧
    (process_verify_step initUnlockDoor HttpResp.networkError).2.1
      = StepResult.done false Msg.authFailedMsg ∧
    (process_verify_step initUnlockDoor HttpResp.networkError).2.2
      = [failedCombinedLog] :=
  ⟨c7_reject_on_bad_response.1 500 JsonBody.malformed (by decide),
   c7_reject_on_bad_response.2.2.2.2 initUnlockDoor HttpResp.networkError rfl⟩

/-- Claim C8: once the actuation step runs on the success path with a stored
user record — which every success response of the repository backend
carries — the session always completes regardless of lock-actuator
internal errors: the outcome, message and success access-log entry are
identical for every actuator signal, the state is completed, and the cycle
itself absorbs servo errors and returns true.  The boundary the hypothesis
excludes is also characterized: with no stored user record the source
raises AttributeError reading the user id, so the step crashes with no log
and no completed state. -/
theorem c8_actuation_always_completes (s : UnlockDoorState) (u : UserRecord)
    (sig sig2 : LockSig) (servo : ServoSig)
    (hu : s.user_data = some u) :
    (process_unlock_step_final s sig = process_unlock_step_final s sig2 ∧
      (process_unlock_step_final s sig).1.unlock_state = UState.completed ∧
      (process_unlock_step_final s sig).2.1 = StepResult.done true Msg.welcomeMsg ∧
      (process_unlock_step_final s sig).2.2 =
        [{ user_id := some u.user_id
           access_type := "success"
           method := "gui"
           notes := none }] ∧
      operate_lock servo = true) ∧
    (∀ (s2 : UnlockDoorState) (sig3 : LockSig), s2.user_data = none →
      (process_unlock_step_final s2 sig3).1.unlock_state = UState.crashed ∧
      (process_unlock_step_final s2 sig3).2.1 = StepResult.pending ∧
      (process_unlock_step_final s2 sig3).2.2 = []) := by
  constructor
  · unfold process_unlock_step_final
    rw [hu]
    exact ⟨rfl, rfl, rfl, rfl, rfl⟩
  · intro s2 sig3 hnone
    unfold process_unlock_step_final
    rw [hnone]
    exact ⟨rfl, rfl, rfl⟩

/-- Witness for claim C8 at a concrete state holding a user record, with a
raising actuator against a failing servo. -/
theorem c8_witness_demo_user :
    (process_unlock_step_final { initUnlockDoor with user_data := some demoUser }
        LockSig.raiseError
      = process_unlock_step_final { initUnlockDoor with user_data := some demoUser }
          (LockSig.works ServoSig.unlockRaise) ∧
     (process_unlock_step_final { initUnlockDoor with user_data := some demoUser }
        LockSig.raiseError).1.unlock_state = UState.completed ∧
     (process_unlock_step_final { initUnlockDoor with user_data := some demoUser }
        LockSig.raiseError).2.1 = StepResult.done true Msg.welcomeMsg ∧
     (process_unlock_step_final { initUnlockDoor with user_data := some demoUser }
        LockSig.raiseError).2.2 =
        [{ user_id := some demoUser.user_id
           access_type := "success"
           method := "gui"
           notes := none }] ∧
     operate_lock ServoSig.unlockRaise = true) ∧
    (∀ (s2 : UnlockDoorState) (sig3 : LockSig), s2.user_data = none →
      (process_unlock_step_final s2 sig3).1.unlock_state = UState.crashed ∧
      (process_unlock_step_final s2 sig3).2.1 = StepResult.pending ∧
      (process_unlock_step_final s2 sig3).2.2 = []) :=
  c8_actuation_always_completes { initUnlockDoor with user_data := some demoUser } demoUser
    LockSig.raiseError (LockSig.works ServoSig.unlockRaise) ServoSig.unlockRaise rfl

/-- Claim C9 counterexample: the camera release calls sit in try blocks
whose except handlers only print, so when stop/close raises the camera
stays held; after a face success whose release raised and one fingerprint
tick whose cleanup raised again, the camera and the fingerprint-sensor
object are held at the same instant — the claim that they are never held
simultaneously is false on this input. -/
theorem c9_counterexample_release_failure :
    bothHeldState.camera = true ∧ bothHeldState.fp_sensor = true := by
  have hne : ("alice" : String) ≠ "Unknown" := by decide
  constructor <;>
    norm_num [bothHeldState, relFailFaceTick, relFailFpTick, runTicks, mainTick,
      verify_and_unlock, initUnlockDoor, process_unlock_step, process_face_step,
      process_fingerprint_step, hne]

/-- Claim C9 (amended): whenever the camera release operations succeed (the
stop/close calls in the face-success transition and at the start of each
fingerprint tick do not raise), the camera and the fingerprint sensor are
never held at the same instant: along every unlock-session trace with
successful releases the two held-flags are never both set, every
fingerprint-step tick with a successful cleanup ends with the camera
released, and a face-step success with a successful release enters the
fingerprint step with the camera closed.  When a release raises, the
camera stays held and the sensor is still created in the same tick. -/
theorem c9_amended_camera_fp_exclusive :
    (∀ (t0 : ℚ) (ticks : List TickIn), (∀ t ∈ ticks, t.camRelOk = true) →
      ((runTicks (verify_and_unlock initUnlockDoor t0) ticks).camera
        && (runTicks (verify_and_unlock initUnlockDoor t0) ticks).fp_sensor) = false) ∧
    (∀ (s : UnlockDoorState) (now : ℚ) (sig : FpSig),
      (process_fingerprint_step s now true sig).1.camera = false) ∧
    (∀ (s : UnlockDoorState) (now : ℚ) (camOk : Bool) (sig : FaceSig),
      s.unlock_step = UStep.face →
      (process_face_step s now camOk true sig).1.unlock_step = UStep.fingerprint →
      (process_face_step s now camOk true sig).1.camera = false) := by
  refine ⟨?_, fun s now sig => fp_step_camera s now sig, ?_⟩
  · intro t0 ticks hrel
    have hinit : CamFpInv (verify_and_unlock initUnlockDoor t0) := by
      constructor <;> simp [verify_and_unlock, initUnlockDoor]
    rcases (camfp_runTicks _ ticks hrel hinit).2 with hc | hf
    · simp [hc]
    · simp [hf]
  · intro s now camOk sig hface hadv
    rcases face_step_cases s now camOk sig with h | h
    · rw [hadv, hface] at h
      exact absurd h (by simp)
    · exact h.2

/-- Witness for the face-success conjunct of claim C9: from the concrete
camera-holding face state, a recognized face with a successful release
advances to the fingerprint step with the camera released. -/
theorem c9_witness_face_success_releases_camera :
    (process_face_step camHeldFaceState 1 true true (FaceSig.frameResult "alice")).1.camera
      = false :=
  c9_amended_camera_fp_exclusive.2.2 camHeldFaceState 1 true (FaceSig.frameResult "alice")
    (by norm_num [camHeldFaceState, demoFaceTick, mainTick, verify_and_unlock, initUnlockDoor,
      process_unlock_step, process_face_step])
    (by
      have hne : ("alice" : String) ≠ "Unknown" := by decide
      norm_num [camHeldFaceState, demoFaceTick, mainTick, verify_and_unlock, initUnlockDoor,
        process_unlock_step, process_face_step, hne])

/-- Claim C10 counterexample: with the same key set still pressed and
exactly 0.3 s elapsed since the last accepted key, at least 300 ms have
elapsed, yet the scan is ignored — the boundary case of the claim, at
least 300 ms elapsed, is false on this input (the code requires strictly more
than 0.3 s). -/
theorem c10_counterexample_boundary :
    ((3:ℚ)/10 - 0 ≥ 3/10) ∧
    (hardware_check_pin_input { last_key_pressed := ["1"], last_key_time := 0 }
      (3/10) ["1"]).1 = none := by
  constructor
  · norm_num
  · norm_num [hardware_check_pin_input]

/-- Claim C10 (amended): the non-blocking keypad scan accepts a newly
pressed key if and only if some key is pressed and either the pressed key
set differs from the last observed set or strictly more than 300 ms have
elapsed since the last accepted key; an accepted scan yields the first
pressed key and records the set and the time; an ignored non-empty scan
leaves the state unchanged; and a scan with no key pressed resets the
last-observed set. -/
theorem c10_amended_debounce (s : KeypadState) (now : ℚ) (pressed : List String) :
    ((hardware_check_pin_input s now pressed).1.isSome = true ↔
      pressed ≠ [] ∧ (pressed ≠ s.last_key_pressed ∨ now - s.last_key_time > 3/10)) ∧
    (hardware_check_pin_input s now []).2.last_key_pressed = [] ∧
    ((hardware_check_pin_input s now pressed).1.isSome = true →
      (hardware_check_pin_input s now pressed).1 = pressed.head? ∧
      (hardware_check_pin_input s now pressed).2
        = { last_key_pressed := pressed, last_key_time := now }) ∧
    (pressed ≠ [] → (hardware_check_pin_input s now pressed).1 = none →
      (hardware_check_pin_input s now pressed).2 = s) := by
  unfold hardware_check_pin_input
  rcases pressed with _ | ⟨k, ks⟩ <;> split_ifs <;> simp_all

/-- Witness for the amended theorem of claim C10 at a concrete accepted scan. -/
theorem c10_witness_accept :
    ((hardware_check_pin_input { last_key_pressed := [], last_key_time := 0 }
        1 ["5"]).1.isSome = true ↔
      (["5"] : List String) ≠ [] ∧
        ((["5"] : List String) ≠ [] ∨ (1:ℚ) - 0 > 3/10)) ∧
    (hardware_check_pin_input { last_key_pressed := [], last_key_time := 0 }
      1 []).2.last_key_pressed = [] ∧
    ((hardware_check_pin_input { last_key_pressed := [], last_key_time := 0 }
        1 ["5"]).1.isSome = true →
      (hardware_check_pin_input { last_key_pressed := [], last_key_time := 0 }
        1 ["5"]).1 = (["5"] : List String).head? ∧
      (hardware_check_pin_input { last_key_pressed := [], last_key_time := 0 }
        1 ["5"]).2 = { last_key_pressed := ["5"], last_key_time := 1 }) ∧
    ((["5"] : List String) ≠ [] →
      (hardware_check_pin_input { last_key_pressed := [], last_key_time := 0 }
        1 ["5"]).1 = none →
      (hardware_check_pin_input { last_key_pressed := [], last_key_time := 0 }
        1 ["5"]).2 = { last_key_pressed := [], last_key_time := 0 }) :=
  c10_amended_debounce { last_key_pressed := [], last_key_time := 0 } 1 ["5"]
